import Mathlib

/-!
# Verification of `sc-platform-pii-lambda` (`src/dek-creator/app.mjs`)

The repository holds two near-duplicate copies of one AWS Lambda handler that
provisions a MongoDB CSFLE data encryption key:

* variant A ("secret-store"): fetches a Secrets Manager secret for the
  MongoDB URI, validates the request, connects, resolves AWS credentials,
  constructs a `ClientEncryption` over the opened connection, calls
  `createDataKey`, and renders a UUID string;
* variant B ("environment"): reads `process.env.MONGODB_URI`, validates
  first, connects (discarding the returned client), and constructs its
  `ClientEncryption` from the module-level `dbClient` binding, which is
  initialised to `null` and never assigned.

External collaborators (Secrets Manager, the MongoDB driver, the AWS
credential chain, `ClientEncryption.createDataKey`, and the `uuid` module's
random source) are modelled by an `Oracle` record.  Each handler is a total
function from an oracle and an event to a response envelope together with
the ordered trace of external calls it made.

JavaScript semantics embedded here, with the source facts they rest on:

* `!x` on a string field is true exactly when the field is absent
  (`undefined`) or the empty string — modelled by `falsy` on `Option String`;
* template-literal interpolation renders `undefined` as the text
  "undefined" — modelled by `showJs`;
* `JSON.stringify` on an `Error` instance yields `"{}"` because `message`
  and `stack` are non-enumerable — modelled by `stringifyThrown`;
* the `uuid` package's `v4(options)` draws fresh random bytes whenever
  `options` has no `random`/`rng` field; a `Buffer` has neither, so
  `v4(dataKey.buffer)` (the source imports `v4` under the alias
  `stringify`) ignores the buffer and returns a freshly generated random
  UUID — modelled by the oracle field `uuidV4`.
-/

/-- The invocation request destructured by the handler:
`const { kmsKeyArn, kmsKeyRegion, dekAltName } = event;`.
A `none` field is an absent (`undefined`) property. -/
structure Event where
  kmsKeyArn : Option String
  kmsKeyRegion : Option String
  dekAltName : Option String
deriving DecidableEq, Repr

/-- JavaScript falsiness of a possibly-absent string: `!x` is true for
`undefined` and for the empty string. -/
def falsy : Option String → Bool
  | none => true
  | some s => s == ""

/-- The condition of the validation branch
`if (!kmsKeyArn || !kmsKeyRegion || !dekAltName)`. -/
def validationFails (ev : Event) : Bool :=
  falsy ev.kmsKeyArn || falsy ev.kmsKeyRegion || falsy ev.dekAltName

/-- Template-literal rendering of a possibly-absent string:
an absent property interpolates as the text "undefined". -/
def showJs : Option String → String
  | none => "undefined"
  | some s => s

/-- The message of the `Error` thrown by the validation branch, interpolating
all three destructured fields. -/
def missingParamMsg (ev : Event) : String :=
  "One of the parameter is not provided kmsKeyArn: " ++ showJs ev.kmsKeyArn ++
  ", kmsKeyRegion: " ++ showJs ev.kmsKeyRegion ++
  ", dekAltName: " ++ showJs ev.dekAltName

/-- A JavaScript value reaching the handler's `catch (err)`.
`errObj m` is an `Error` instance with message `m`; its `message` and
`stack` properties are non-enumerable, so `JSON.stringify` renders it as
"\x7b\x7d".  `plainJson s` is a thrown non-`Error` value whose
`JSON.stringify` rendering is `s`. -/
inductive Thrown where
  | errObj (message : String)
  | plainJson (json : String)
deriving DecidableEq, Repr

/-- `JSON.stringify` applied to a caught value. -/
def stringifyThrown : Thrown → String
  | Thrown.errObj _ => "\x7b\x7d"
  | Thrown.plainJson s => s

/-- Escaping a string for embedding as a JSON string value, as
`JSON.stringify` does.  The strings arising in this model contain no
control characters, so escaping quote and backslash is exact. -/
def jsonEscape (s : String) : String :=
  String.join (s.data.map (fun c =>
    if c = '"' then "\\\"" else if c = '\\' then "\\\\" else String.singleton c))

/-- `JSON.stringify({ dataKeyUUID: uuidString })`. -/
def successBody (uuidString : String) : String :=
  "\x7b\"dataKeyUUID\":\"" ++ jsonEscape uuidString ++ "\"\x7d"

/-- `JSON.stringify({ message: "error", error: JSON.stringify(err) })`:
the inner stringification is itself a JSON string value of the outer
object. -/
def errorBody (e : Thrown) : String :=
  "\x7b\"message\":\"error\",\"error\":\"" ++ jsonEscape (stringifyThrown e) ++ "\"\x7d"

/-- The API-Gateway-style response value `{ statusCode, body }`. -/
structure Envelope where
  statusCode : Nat
  body : String
deriving DecidableEq, Repr

/-- The success return value of the `try` block. -/
def mkSuccess (uuidString : String) : Envelope :=
  { statusCode := 200, body := successBody uuidString }

/-- The return value of the `catch` block. -/
def mkError (e : Thrown) : Envelope :=
  { statusCode := 200, body := errorBody e }

/-- The secret object parsed from `secretsResponse.SecretString`; the handler
reads its `MONGODB_URI` property (possibly absent). -/
structure Secrets where
  MONGODB_URI : Option String
deriving DecidableEq, Repr

/-- AWS credentials resolved by `fromNodeProviderChain()`. -/
structure Creds where
  accessKeyId : String
  secretAccessKey : String
  sessionToken : Option String
deriving DecidableEq, Repr

/-- `const KEY_NAMESPACE = "encryption.__keyVault"`. -/
def KEY_NAMESPACE : String := "encryption.__keyVault"

/-- A constructed `ClientEncryption` instance: the database client handle it
was given (`none` models a `null` client), the key-vault namespace and the
AWS credentials of its `kmsProviders` option.  Database client handles are
identifiers assigned by the oracle's `connect`. -/
structure ClientEnc where
  dbClient : Option Nat
  keyVaultNamespace : String
  kmsAws : Creds
deriving DecidableEq, Repr

/-- One external call made by a handler invocation, in order. -/
inductive Call where
  | secretFetch
  | connect (uri : Option String)
  | credsResolve
  | newClientEncryption (dbClient : Option Nat) (keyVaultNamespace : String)
  | createDataKey (keyVaultNamespace : String) (dbClient : Option Nat)
      (provider : String) (masterKey : String × String) (keyAltNames : List String)
  | uuidGen
deriving DecidableEq, Repr

/-- The behaviour of the external collaborators during one invocation.
`createDataKey` may observe the database client handle the encryption
instance was constructed over; on success it yields the 16-byte binary key
id.  `uuidV4` is the UUID produced by the `uuid` module's `v4` from its
random source. -/
structure Oracle where
  secretFetch : Except Thrown Secrets
  connect : Option String → Except Thrown Nat
  creds : Except Thrown Creds
  createDataKey : Option Nat → String → String × String → List String →
      Except Thrown (List Nat)
  uuidV4 : String

/-- JavaScript string coercion of a field already known truthy (after
validation every field is `some` of a non-empty string). -/
def getStr (v : Option String) : String := v.getD ""

/-- The `try` block of variant A's `lambdaHandler`: secret fetch, validation,
`initializeMongodb(secrets.MONGODB_URI)`, `initialize(dbClient)` (credential
resolution then `ClientEncryption` construction over the opened client),
`createDataKey`, then `stringify(dataKey.buffer)` — which is `uuid.v4`
under an alias and thus draws a fresh random UUID.  A thrown value carries
the trace of external calls made before the throw. -/
def tryBlockSecret (o : Oracle) (ev : Event) :
    Except (Thrown × List Call) (Envelope × List Call) :=
  match o.secretFetch with
  | Except.error e => Except.error (e, [Call.secretFetch])
  | Except.ok secrets =>
    if validationFails ev then
      Except.error (Thrown.errObj (missingParamMsg ev), [Call.secretFetch])
    else
      match o.connect secrets.MONGODB_URI with
      | Except.error e =>
          Except.error (e, [Call.secretFetch, Call.connect secrets.MONGODB_URI])
      | Except.ok dbc =>
        match o.creds with
        | Except.error e =>
            Except.error (e, [Call.secretFetch, Call.connect secrets.MONGODB_URI,
              Call.credsResolve])
        | Except.ok _aws =>
          match o.createDataKey (some dbc) "aws"
              (getStr ev.kmsKeyArn, getStr ev.kmsKeyRegion)
              [getStr ev.dekAltName] with
          | Except.error e =>
              Except.error (e, [Call.secretFetch, Call.connect secrets.MONGODB_URI,
                Call.credsResolve,
                Call.newClientEncryption (some dbc) KEY_NAMESPACE,
                Call.createDataKey KEY_NAMESPACE (some dbc) "aws"
                  (getStr ev.kmsKeyArn, getStr ev.kmsKeyRegion)
                  [getStr ev.dekAltName]])
          | Except.ok _dataKey =>
              Except.ok (mkSuccess o.uuidV4,
                [Call.secretFetch, Call.connect secrets.MONGODB_URI,
                Call.credsResolve,
                Call.newClientEncryption (some dbc) KEY_NAMESPACE,
                Call.createDataKey KEY_NAMESPACE (some dbc) "aws"
                  (getStr ev.kmsKeyArn, getStr ev.kmsKeyRegion)
                  [getStr ev.dekAltName],
                Call.uuidGen])

/-- Variant A's `lambdaHandler`: the `try` block with its all-catching
`catch` clause, which converts any thrown value into the generic error
envelope. -/
def handlerSecret (o : Oracle) (ev : Event) : Envelope × List Call :=
  match tryBlockSecret o ev with
  | Except.ok r => r
  | Except.error (e, tr) => (mkError e, tr)

/-- The module-level mutable bindings of variant B:
`let encryptionInstance = null; let dbClient = null;`. -/
structure StateB where
  encryptionInstance : Option ClientEnc
  dbClient : Option Nat
deriving DecidableEq, Repr

/-- The module state at load time of variant B. -/
def initStateB : StateB := { encryptionInstance := none, dbClient := none }

/-- The assignment performed by variant B's `initialize()`:
`encryptionInstance = new ClientEncryption(dbClient, ...)` — reading the
module-level `dbClient` binding, which no statement ever assigns. -/
def setEnc (st : StateB) (aws : Creds) : StateB :=
  { st with encryptionInstance := some (ClientEnc.mk st.dbClient KEY_NAMESPACE aws) }

/-- The `try` block of variant B's `lambdaHandler`: validation first, then
`initializeMongodb()` on the module-level `uri` (its returned client is
discarded), then `initialize()` which resolves credentials and assigns the
module-level `encryptionInstance` a `ClientEncryption` constructed over the
module-level `dbClient` binding — which no statement ever assigns. -/
def tryBlockEnv (envUri : Option String) (o : Oracle) (ev : Event) (st : StateB) :
    Except (Thrown × List Call × StateB) (Envelope × List Call × StateB) :=
  if validationFails ev then
    Except.error (Thrown.errObj (missingParamMsg ev), [], st)
  else
    match o.connect envUri with
    | Except.error e => Except.error (e, [Call.connect envUri], st)
    | Except.ok _client =>
      match o.creds with
      | Except.error e =>
          Except.error (e, [Call.connect envUri, Call.credsResolve], st)
      | Except.ok aws =>
        match o.createDataKey st.dbClient "aws"
            (getStr ev.kmsKeyArn, getStr ev.kmsKeyRegion)
            [getStr ev.dekAltName] with
        | Except.error e =>
            Except.error (e, [Call.connect envUri, Call.credsResolve,
              Call.newClientEncryption st.dbClient KEY_NAMESPACE,
              Call.createDataKey KEY_NAMESPACE st.dbClient "aws"
                (getStr ev.kmsKeyArn, getStr ev.kmsKeyRegion)
                [getStr ev.dekAltName]],
              setEnc st aws)
        | Except.ok _dataKey =>
            Except.ok (mkSuccess o.uuidV4,
              [Call.connect envUri, Call.credsResolve,
              Call.newClientEncryption st.dbClient KEY_NAMESPACE,
              Call.createDataKey KEY_NAMESPACE st.dbClient "aws"
                (getStr ev.kmsKeyArn, getStr ev.kmsKeyRegion)
                [getStr ev.dekAltName],
              Call.uuidGen],
              setEnc st aws)

/-- Variant B's `lambdaHandler` with its all-catching `catch` clause;
returns the envelope, the call trace, and the module state after the
invocation. -/
def handlerEnv (envUri : Option String) (o : Oracle) (ev : Event) (st : StateB) :
    Envelope × List Call × StateB :=
  match tryBlockEnv envUri o ev st with
  | Except.ok r => r
  | Except.error (e, tr, st1) => (mkError e, tr, st1)

/-- The module state of variant B after a sequence of invocations starting
from module load. -/
def runEnv (envUri : Option String) (invocs : List (Oracle × Event)) : StateB :=
  invocs.foldl (fun st oe => (handlerEnv envUri oe.1 oe.2 st).2.2) initStateB

/-- Lower-case hexadecimal digit. -/
def hexDigit (n : Nat) : Char :=
  if n < 10 then Char.ofNat (48 + n) else Char.ofNat (87 + n)

/-- Two-digit lower-case hexadecimal rendering of a byte. -/
def hexPair (b : Nat) : String :=
  String.mk [hexDigit (b / 16 % 16), hexDigit (b % 16)]

/-- Modelled from the spec: the canonical textual UUID representation
(8-4-4-4-12 lower-case hex) of a 16-byte binary key identifier — the
function the `uuid` package exports as `stringify`, which the source does
not call (it imports `v4` under that alias instead). -/
def uuidStringify (bs : List Nat) : String :=
  String.join ((bs.take 4).map hexPair) ++ "-" ++
  String.join (((bs.drop 4).take 2).map hexPair) ++ "-" ++
  String.join (((bs.drop 6).take 2).map hexPair) ++ "-" ++
  String.join (((bs.drop 8).take 2).map hexPair) ++ "-" ++
  String.join ((bs.drop 10).map hexPair)

/-- A fully succeeding oracle used for concrete evaluations: the secret
holds a URI, connect yields client handle 7, credentials resolve, and
`createDataKey` yields the all-zero 16-byte key id; the `uuid` module's
random source produces a fixed v4-shaped string. -/
def secretsGood : Secrets := { MONGODB_URI := some "mongodb://cluster" }

def credsGood : Creds :=
  { accessKeyId := "AKIAEXAMPLE", secretAccessKey := "wJalrEXAMPLEKEY",
    sessionToken := some "tokenEXAMPLE" }

def dataKeyBytes0 : List Nat := List.replicate 16 0

def oGood : Oracle :=
  { secretFetch := Except.ok secretsGood,
    connect := fun _ => Except.ok 7,
    creds := Except.ok credsGood,
    createDataKey := fun _ _ _ _ => Except.ok dataKeyBytes0,
    uuidV4 := "9b1deb4d-3b7d-4bad-9bdd-2b0d7b3dcb6d" }

def evGood : Event :=
  { kmsKeyArn := some "arn:aws:kms:ap-south-1:111122223333:key/abc",
    kmsKeyRegion := some "ap-south-1",
    dekAltName := some "service-x-dek" }

/-- The spec's validation example: empty `kmsKeyArn`, the others present. -/
def evMissingArn : Event :=
  { kmsKeyArn := some "", kmsKeyRegion := some "ap-south-1",
    dekAltName := some "x" }

/-- A request with all three fields absent. -/
def evAllMissing : Event :=
  { kmsKeyArn := none, kmsKeyRegion := none, dekAltName := none }

/-- An oracle whose database connection attempt fails. -/
def oConnFail : Oracle :=
  { oGood with connect := fun _ => Except.error (Thrown.errObj "MongoNetworkError") }

/-- A non-`Error` value thrown by a failing secret fetch (its
`JSON.stringify` rendering is the given JSON text). -/
def thrownFetch : Thrown :=
  Thrown.plainJson "\x7b\"name\":\"AccessDeniedException\"\x7d"

/-- An oracle whose Secrets Manager fetch fails. -/
def oFetchFail : Oracle :=
  { oGood with secretFetch := Except.error thrownFetch }

/-- Substring containment on strings, via infix of the character lists. -/
def containsSub (hay needle : String) : Prop := needle.data <:+: hay.data

/-- The failure body produced whenever the caught value is an `Error`
instance: its `error` field is the two-character text "\x7b\x7d". -/
def genericErrorBody : String := "\x7b\"message\":\"error\",\"error\":\"\x7b\x7d\"\x7d"

example : uuidStringify dataKeyBytes0 = "00000000-0000-0000-0000-000000000000" := by decide

example : (handlerSecret oGood evGood).1 =
    mkSuccess "9b1deb4d-3b7d-4bad-9bdd-2b0d7b3dcb6d" := by decide

example : (handlerSecret oGood evMissingArn).1.body =
    "\x7b\"message\":\"error\",\"error\":\"\x7b\x7d\"\x7d" := by decide

example : (handlerSecret oGood evMissingArn).2 = [Call.secretFetch] := by decide

example : (handlerEnv (some "mongodb://cluster") oGood evMissingArn initStateB).2.1 = [] := by
  decide

/-! ## Shape lemmas shared by several theorems -/

/-- Every run of variant A's `try` block either throws or returns the
success envelope built from the freshly generated UUID. -/
lemma tryBlockSecret_shape (o : Oracle) (ev : Event) :
    (∃ e tr, tryBlockSecret o ev = Except.error (e, tr)) ∨
    (∃ tr, tryBlockSecret o ev = Except.ok (mkSuccess o.uuidV4, tr)) := by
  unfold tryBlockSecret
  split
  · exact Or.inl ⟨_, _, rfl⟩
  · split
    · exact Or.inl ⟨_, _, rfl⟩
    · split
      · exact Or.inl ⟨_, _, rfl⟩
      · split
        · exact Or.inl ⟨_, _, rfl⟩
        · split
          · exact Or.inl ⟨_, _, rfl⟩
          · exact Or.inr ⟨_, rfl⟩

/-- Every run of variant B's `try` block either throws or returns the
success envelope built from the freshly generated UUID. -/
lemma tryBlockEnv_shape (envUri : Option String) (o : Oracle) (ev : Event) (st : StateB) :
    (∃ e tr st1, tryBlockEnv envUri o ev st = Except.error (e, tr, st1)) ∨
    (∃ tr st1, tryBlockEnv envUri o ev st = Except.ok (mkSuccess o.uuidV4, tr, st1)) := by
  unfold tryBlockEnv
  split
  · exact Or.inl ⟨_, _, _, rfl⟩
  · split
    · exact Or.inl ⟨_, _, _, rfl⟩
    · split
      · exact Or.inl ⟨_, _, _, rfl⟩
      · split
        · exact Or.inl ⟨_, _, _, rfl⟩
        · exact Or.inr ⟨_, _, rfl⟩

/-- The envelope of variant A is always `mkError` or `mkSuccess`. -/
lemma handlerSecret_fst (o : Oracle) (ev : Event) :
    (∃ e, (handlerSecret o ev).1 = mkError e) ∨
    (handlerSecret o ev).1 = mkSuccess o.uuidV4 := by
  rcases tryBlockSecret_shape o ev with ⟨e, tr, h⟩ | ⟨tr, h⟩
  · exact Or.inl ⟨e, by simp [handlerSecret, h]⟩
  · exact Or.inr (by simp [handlerSecret, h])

/-- The envelope of variant B is always `mkError` or `mkSuccess`. -/
lemma handlerEnv_fst (envUri : Option String) (o : Oracle) (ev : Event) (st : StateB) :
    (∃ e, (handlerEnv envUri o ev st).1 = mkError e) ∨
    (handlerEnv envUri o ev st).1 = mkSuccess o.uuidV4 := by
  rcases tryBlockEnv_shape envUri o ev st with ⟨e, tr, st1, h⟩ | ⟨tr, st1, h⟩
  · exact Or.inl ⟨e, by simp [handlerEnv, h]⟩
  · exact Or.inr (by simp [handlerEnv, h])

/-! ## Claim theorems -/

/-- C3: for every input and every failure mode, both handler variants
return statusCode 200; on failure the body is the JSON string of
`{ message: "error", error: <stringified failure> }` and on success the
JSON string of `{ dataKeyUUID }`. -/
theorem c3_status_always_200_and_body_shapes :
    ∀ (o : Oracle) (ev : Event) (envUri : Option String) (st : StateB),
      (handlerSecret o ev).1.statusCode = 200 ∧
      (handlerEnv envUri o ev st).1.statusCode = 200 ∧
      ((∃ e, (handlerSecret o ev).1.body = errorBody e) ∨
        (∃ u, (handlerSecret o ev).1.body = successBody u)) ∧
      ((∃ e, (handlerEnv envUri o ev st).1.body = errorBody e) ∨
        (∃ u, (handlerEnv envUri o ev st).1.body = successBody u)) := by
  intro o ev envUri st
  refine ⟨?_, ?_, ?_, ?_⟩
  · rcases handlerSecret_fst o ev with ⟨e, h⟩ | h <;> rw [h] <;> rfl
  · rcases handlerEnv_fst envUri o ev st with ⟨e, h⟩ | h <;> rw [h] <;> rfl
  · rcases handlerSecret_fst o ev with ⟨e, h⟩ | h
    · exact Or.inl ⟨e, by rw [h]; rfl⟩
    · exact Or.inr ⟨o.uuidV4, by rw [h]; rfl⟩
  · rcases handlerEnv_fst envUri o ev st with ⟨e, h⟩ | h
    · exact Or.inl ⟨e, by rw [h]; rfl⟩
    · exact Or.inr ⟨o.uuidV4, by rw [h]; rfl⟩

/-- C5: for every input and every failure of any internal step, each
handler variant exits only by returning a `{ statusCode, body }` envelope
(with statusCode 200); no thrown value escapes the handler boundary. -/
theorem c5_handler_total_envelope :
    ∀ (o : Oracle) (ev : Event) (envUri : Option String) (st : StateB),
      (∃ b tr, handlerSecret o ev = ({ statusCode := 200, body := b }, tr)) ∧
      (∃ b tr st1, handlerEnv envUri o ev st = ({ statusCode := 200, body := b }, tr, st1)) := by
  intro o ev envUri st
  constructor
  · rcases tryBlockSecret_shape o ev with ⟨e, tr, h⟩ | ⟨tr, h⟩
    · exact ⟨errorBody e, tr, by simp [handlerSecret, h, mkError]⟩
    · exact ⟨successBody o.uuidV4, tr, by simp [handlerSecret, h, mkSuccess]⟩
  · rcases tryBlockEnv_shape envUri o ev st with ⟨e, tr, st1, h⟩ | ⟨tr, st1, h⟩
    · exact ⟨errorBody e, tr, st1, by simp [handlerEnv, h, mkError]⟩
    · exact ⟨successBody o.uuidV4, tr, st1, by simp [handlerEnv, h, mkSuccess]⟩

/-- C6: whenever variant A's `try` block throws, the `error` field of the
returned body is `JSON.stringify` applied to the caught value, and for
`Error` instances (whose `message` and `stack` are non-enumerable) that
stringification is "\x7b\x7d", so the body carries no detail of the
failure. -/
theorem c6_error_field_is_stringified_catch :
    ∀ (o : Oracle) (ev : Event) (e : Thrown) (tr : List Call),
      tryBlockSecret o ev = Except.error (e, tr) →
      (handlerSecret o ev).1.body =
        "\x7b\"message\":\"error\",\"error\":\"" ++ jsonEscape (stringifyThrown e) ++ "\"\x7d" ∧
      (∀ m, stringifyThrown (Thrown.errObj m) = "\x7b\x7d") := by
  intro o ev e tr h
  refine ⟨?_, fun m => rfl⟩
  simp [handlerSecret, h, mkError, errorBody]

/-- Witness for C6 at a concrete throwing run: all fields absent, so the
validation `Error` is thrown, and the returned body is the generic
envelope whose `error` field is the two-character serialization of the
`Error` instance. -/
theorem c6_witness :
    (handlerSecret oGood evAllMissing).1.body =
      "\x7b\"message\":\"error\",\"error\":\"" ++
        jsonEscape (stringifyThrown (Thrown.errObj (missingParamMsg evAllMissing))) ++ "\"\x7d" :=
  (c6_error_field_is_stringified_catch oGood evAllMissing
    (Thrown.errObj (missingParamMsg evAllMissing)) [Call.secretFetch] rfl).1

/-! ## Branch evaluation lemmas for variant A -/

lemma tryBlockSecret_fetchFail (o : Oracle) (ev : Event) (e : Thrown)
    (hf : o.secretFetch = Except.error e) :
    tryBlockSecret o ev = Except.error (e, [Call.secretFetch]) := by
  unfold tryBlockSecret
  rw [hf]

lemma tryBlockSecret_invalid (o : Oracle) (ev : Event) (s : Secrets)
    (hf : o.secretFetch = Except.ok s) (hv : validationFails ev = true) :
    tryBlockSecret o ev =
      Except.error (Thrown.errObj (missingParamMsg ev), [Call.secretFetch]) := by
  unfold tryBlockSecret
  rw [hf]
  simp [hv]

lemma tryBlockSecret_connectFail (o : Oracle) (ev : Event) (s : Secrets) (e : Thrown)
    (hf : o.secretFetch = Except.ok s) (hv : validationFails ev = false)
    (hc : o.connect s.MONGODB_URI = Except.error e) :
    tryBlockSecret o ev =
      Except.error (e, [Call.secretFetch, Call.connect s.MONGODB_URI]) := by
  unfold tryBlockSecret
  rw [hf]
  simp [hv, hc]

lemma tryBlockSecret_credsFail (o : Oracle) (ev : Event) (s : Secrets) (dbc : Nat)
    (e : Thrown) (hf : o.secretFetch = Except.ok s) (hv : validationFails ev = false)
    (hc : o.connect s.MONGODB_URI = Except.ok dbc) (hcr : o.creds = Except.error e) :
    tryBlockSecret o ev =
      Except.error (e, [Call.secretFetch, Call.connect s.MONGODB_URI,
        Call.credsResolve]) := by
  unfold tryBlockSecret
  rw [hf]
  simp [hv, hc, hcr]

lemma tryBlockSecret_createFail (o : Oracle) (ev : Event) (s : Secrets) (dbc : Nat)
    (a : Creds) (e : Thrown) (hf : o.secretFetch = Except.ok s)
    (hv : validationFails ev = false) (hc : o.connect s.MONGODB_URI = Except.ok dbc)
    (hcr : o.creds = Except.ok a)
    (hk : o.createDataKey (some dbc) "aws"
        (getStr ev.kmsKeyArn, getStr ev.kmsKeyRegion) [getStr ev.dekAltName] =
      Except.error e) :
    tryBlockSecret o ev =
      Except.error (e, [Call.secretFetch, Call.connect s.MONGODB_URI,
        Call.credsResolve, Call.newClientEncryption (some dbc) KEY_NAMESPACE,
        Call.createDataKey KEY_NAMESPACE (some dbc) "aws"
          (getStr ev.kmsKeyArn, getStr ev.kmsKeyRegion) [getStr ev.dekAltName]]) := by
  unfold tryBlockSecret
  rw [hf]
  simp [hv, hc, hcr, hk]

lemma tryBlockSecret_success (o : Oracle) (ev : Event) (s : Secrets) (dbc : Nat)
    (a : Creds) (k : List Nat) (hf : o.secretFetch = Except.ok s)
    (hv : validationFails ev = false) (hc : o.connect s.MONGODB_URI = Except.ok dbc)
    (hcr : o.creds = Except.ok a)
    (hk : o.createDataKey (some dbc) "aws"
        (getStr ev.kmsKeyArn, getStr ev.kmsKeyRegion) [getStr ev.dekAltName] =
      Except.ok k) :
    tryBlockSecret o ev =
      Except.ok (mkSuccess o.uuidV4,
        [Call.secretFetch, Call.connect s.MONGODB_URI, Call.credsResolve,
        Call.newClientEncryption (some dbc) KEY_NAMESPACE,
        Call.createDataKey KEY_NAMESPACE (some dbc) "aws"
          (getStr ev.kmsKeyArn, getStr ev.kmsKeyRegion) [getStr ev.dekAltName],
        Call.uuidGen]) := by
  unfold tryBlockSecret
  rw [hf]
  simp [hv, hc, hcr, hk]

lemma handlerSecret_of_error (o : Oracle) (ev : Event) (e : Thrown) (tr : List Call)
    (h : tryBlockSecret o ev = Except.error (e, tr)) :
    handlerSecret o ev = (mkError e, tr) := by
  unfold handlerSecret
  rw [h]

lemma handlerSecret_of_ok (o : Oracle) (ev : Event) (r : Envelope × List Call)
    (h : tryBlockSecret o ev = Except.ok r) :
    handlerSecret o ev = r := by
  unfold handlerSecret
  rw [h]

/-! ## Branch evaluation lemmas for variant B -/

lemma tryBlockEnv_invalid (envUri : Option String) (o : Oracle) (ev : Event)
    (st : StateB) (hv : validationFails ev = true) :
    tryBlockEnv envUri o ev st =
      Except.error (Thrown.errObj (missingParamMsg ev), [], st) := by
  unfold tryBlockEnv
  simp [hv]

lemma tryBlockEnv_connectFail (envUri : Option String) (o : Oracle) (ev : Event)
    (st : StateB) (e : Thrown) (hv : validationFails ev = false)
    (hc : o.connect envUri = Except.error e) :
    tryBlockEnv envUri o ev st = Except.error (e, [Call.connect envUri], st) := by
  unfold tryBlockEnv
  simp [hv, hc]

lemma tryBlockEnv_credsFail (envUri : Option String) (o : Oracle) (ev : Event)
    (st : StateB) (dbc : Nat) (e : Thrown) (hv : validationFails ev = false)
    (hc : o.connect envUri = Except.ok dbc) (hcr : o.creds = Except.error e) :
    tryBlockEnv envUri o ev st =
      Except.error (e, [Call.connect envUri, Call.credsResolve], st) := by
  unfold tryBlockEnv
  simp [hv, hc, hcr]

lemma tryBlockEnv_createFail (envUri : Option String) (o : Oracle) (ev : Event)
    (st : StateB) (dbc : Nat) (a : Creds) (e : Thrown)
    (hv : validationFails ev = false) (hc : o.connect envUri = Except.ok dbc)
    (hcr : o.creds = Except.ok a)
    (hk : o.createDataKey st.dbClient "aws"
        (getStr ev.kmsKeyArn, getStr ev.kmsKeyRegion) [getStr ev.dekAltName] =
      Except.error e) :
    tryBlockEnv envUri o ev st =
      Except.error (e, [Call.connect envUri, Call.credsResolve,
        Call.newClientEncryption st.dbClient KEY_NAMESPACE,
        Call.createDataKey KEY_NAMESPACE st.dbClient "aws"
          (getStr ev.kmsKeyArn, getStr ev.kmsKeyRegion) [getStr ev.dekAltName]],
        setEnc st a) := by
  unfold tryBlockEnv
  simp [hv, hc, hcr, hk]

lemma tryBlockEnv_success (envUri : Option String) (o : Oracle) (ev : Event)
    (st : StateB) (dbc : Nat) (a : Creds) (k : List Nat)
    (hv : validationFails ev = false) (hc : o.connect envUri = Except.ok dbc)
    (hcr : o.creds = Except.ok a)
    (hk : o.createDataKey st.dbClient "aws"
        (getStr ev.kmsKeyArn, getStr ev.kmsKeyRegion) [getStr ev.dekAltName] =
      Except.ok k) :
    tryBlockEnv envUri o ev st =
      Except.ok (mkSuccess o.uuidV4,
        [Call.connect envUri, Call.credsResolve,
        Call.newClientEncryption st.dbClient KEY_NAMESPACE,
        Call.createDataKey KEY_NAMESPACE st.dbClient "aws"
          (getStr ev.kmsKeyArn, getStr ev.kmsKeyRegion) [getStr ev.dekAltName],
        Call.uuidGen],
        setEnc st a) := by
  unfold tryBlockEnv
  simp [hv, hc, hcr, hk]

lemma handlerEnv_of_error (envUri : Option String) (o : Oracle) (ev : Event)
    (st : StateB) (e : Thrown) (tr : List Call) (st1 : StateB)
    (h : tryBlockEnv envUri o ev st = Except.error (e, tr, st1)) :
    handlerEnv envUri o ev st = (mkError e, tr, st1) := by
  unfold handlerEnv
  rw [h]

lemma handlerEnv_of_ok (envUri : Option String) (o : Oracle) (ev : Event)
    (st : StateB) (r : Envelope × List Call × StateB)
    (h : tryBlockEnv envUri o ev st = Except.ok r) :
    handlerEnv envUri o ev st = r := by
  unfold handlerEnv
  rw [h]

/-! ## The validation message names all three fields -/

/-- The interpolated validation message contains each field name as a
substring (it names all three fields, missing or not). -/
lemma missingParamMsg_names (ev : Event) :
    containsSub (missingParamMsg ev) "kmsKeyArn" ∧
    containsSub (missingParamMsg ev) "kmsKeyRegion" ∧
    containsSub (missingParamMsg ev) "dekAltName" := by
  unfold containsSub missingParamMsg
  refine ⟨?_, ?_, ?_⟩
  · have h : "kmsKeyArn".data <:+:
        "One of the parameter is not provided kmsKeyArn: ".data := by decide
    refine h.trans ?_
    simp only [String.data_append, List.append_assoc]
    exact (List.prefix_append _ _).isInfix
  · have h : "kmsKeyRegion".data <:+: ", kmsKeyRegion: ".data := by decide
    refine h.trans ?_
    refine ⟨"One of the parameter is not provided kmsKeyArn: ".data ++
      (showJs ev.kmsKeyArn).data,
      (showJs ev.kmsKeyRegion).data ++ ", dekAltName: ".data ++
        (showJs ev.dekAltName).data, ?_⟩
    simp [String.data_append, List.append_assoc]
  · have h : "dekAltName".data <:+: ", dekAltName: ".data := by decide
    refine h.trans ?_
    refine ⟨"One of the parameter is not provided kmsKeyArn: ".data ++
      (showJs ev.kmsKeyArn).data ++ ", kmsKeyRegion: ".data ++
        (showJs ev.kmsKeyRegion).data,
      (showJs ev.dekAltName).data, ?_⟩
    simp [String.data_append, List.append_assoc]

/-! ## C2 -/

/-- C2 is false as stated: on the spec's own example (empty `kmsKeyArn`,
secret fetch succeeding), the returned error envelope's body is the
generic string whose `error` field is "\x7b\x7d"; the name of the missing
field appears nowhere in the body. -/
theorem c2_counterexample :
    (handlerSecret oGood evMissingArn).1.body = genericErrorBody ∧
    ¬ containsSub (handlerSecret oGood evMissingArn).1.body "kmsKeyArn" := by
  constructor
  · decide
  · unfold containsSub
    decide

/-- C2 (amended): for every request with a missing or empty field, the
handler never attempts a database connection; the thrown validation
`Error`'s message names the missing field(s) (it interpolates all three),
but once the secret fetch succeeds the returned envelope is the generic
error envelope, whose body carries none of those names. -/
theorem c2_amended_validation_error :
    ∀ (o : Oracle) (ev : Event), validationFails ev = true →
      (∀ u, Call.connect u ∉ (handlerSecret o ev).2) ∧
      containsSub (missingParamMsg ev) "kmsKeyArn" ∧
      containsSub (missingParamMsg ev) "kmsKeyRegion" ∧
      containsSub (missingParamMsg ev) "dekAltName" ∧
      (∀ s, o.secretFetch = Except.ok s →
        handlerSecret o ev =
          (mkError (Thrown.errObj (missingParamMsg ev)), [Call.secretFetch]) ∧
        (handlerSecret o ev).1.body = genericErrorBody) := by
  intro o ev hv
  obtain ⟨h1, h2, h3⟩ := missingParamMsg_names ev
  refine ⟨?_, h1, h2, h3, ?_⟩
  · intro u
    rcases hf : o.secretFetch with e | s
    · rw [handlerSecret_of_error o ev e _ (tryBlockSecret_fetchFail o ev e hf)]
      simp
    · rw [handlerSecret_of_error o ev _ _ (tryBlockSecret_invalid o ev s hf hv)]
      simp
  · intro s hf
    have h := handlerSecret_of_error o ev _ _ (tryBlockSecret_invalid o ev s hf hv)
    exact ⟨h, by rw [h]; rfl⟩

/-- Witness for C2 (amended) on the spec's example request. -/
theorem c2_amended_witness :
    Call.connect (some "mongodb://cluster") ∉ (handlerSecret oGood evMissingArn).2 ∧
    handlerSecret oGood evMissingArn =
      (mkError (Thrown.errObj (missingParamMsg evMissingArn)), [Call.secretFetch]) :=
  ⟨(c2_amended_validation_error oGood evMissingArn rfl).1 _,
   ((c2_amended_validation_error oGood evMissingArn rfl).2.2.2.2 secretsGood rfl).1⟩

/-! ## C1 -/

/-- C1 is contradicted by the code: on a fully successful invocation whose
`createDataKey` returns the all-zero 16-byte key id, the body's
`dataKeyUUID` is the freshly drawn random v4 UUID (the source aliases
`uuid.v4` as `stringify`, and `v4` ignores its buffer argument), which is
not the canonical UUID rendering of the key id bytes — decoding it cannot
yield those bytes. -/
theorem c1_code_returns_random_uuid :
    handlerSecret oGood evGood =
      (mkSuccess "9b1deb4d-3b7d-4bad-9bdd-2b0d7b3dcb6d",
        [Call.secretFetch, Call.connect (some "mongodb://cluster"),
        Call.credsResolve, Call.newClientEncryption (some 7) KEY_NAMESPACE,
        Call.createDataKey KEY_NAMESPACE (some 7) "aws"
          ("arn:aws:kms:ap-south-1:111122223333:key/abc", "ap-south-1")
          ["service-x-dek"],
        Call.uuidGen]) ∧
    uuidStringify dataKeyBytes0 = "00000000-0000-0000-0000-000000000000" ∧
    (handlerSecret oGood evGood).1.body ≠ successBody (uuidStringify dataKeyBytes0) := by
  refine ⟨by decide, by decide, by decide⟩

/-! ## C4 -/

/-- No invocation of variant B changes the module-level `dbClient`
binding. -/
lemma handlerEnv_preserves_dbClient (envUri : Option String) (o : Oracle)
    (ev : Event) (st : StateB) :
    ((handlerEnv envUri o ev st).2.2).dbClient = st.dbClient := by
  cases hv : validationFails ev with
  | true =>
    rw [handlerEnv_of_error envUri o ev st _ _ _ (tryBlockEnv_invalid envUri o ev st hv)]
  | false =>
    cases hc : o.connect envUri with
    | error e =>
      rw [handlerEnv_of_error envUri o ev st _ _ _
        (tryBlockEnv_connectFail envUri o ev st e hv hc)]
    | ok dbc =>
      cases hcr : o.creds with
      | error e =>
        rw [handlerEnv_of_error envUri o ev st _ _ _
          (tryBlockEnv_credsFail envUri o ev st dbc e hv hc hcr)]
      | ok a =>
        cases hk : o.createDataKey st.dbClient "aws"
            (getStr ev.kmsKeyArn, getStr ev.kmsKeyRegion)
            [getStr ev.dekAltName] with
        | error e =>
          rw [handlerEnv_of_error envUri o ev st _ _ _
            (tryBlockEnv_createFail envUri o ev st dbc a e hv hc hcr hk)]
          simp [setEnc]
        | ok k =>
          rw [handlerEnv_of_ok envUri o ev st _
            (tryBlockEnv_success envUri o ev st dbc a k hv hc hcr hk)]
          simp [setEnc]

/-- Every `ClientEncryption` construction recorded in a variant B trace
uses the module-level `dbClient` value the invocation started with. -/
lemma handlerEnv_newClientEncryption_dbClient (envUri : Option String) (o : Oracle)
    (ev : Event) (st : StateB) (d : Option Nat) (ns : String)
    (hm : Call.newClientEncryption d ns ∈ (handlerEnv envUri o ev st).2.1) :
    d = st.dbClient := by
  revert hm
  cases hv : validationFails ev with
  | true =>
    rw [handlerEnv_of_error envUri o ev st _ _ _ (tryBlockEnv_invalid envUri o ev st hv)]
    intro hm
    simp at hm
  | false =>
    cases hc : o.connect envUri with
    | error e =>
      rw [handlerEnv_of_error envUri o ev st _ _ _
        (tryBlockEnv_connectFail envUri o ev st e hv hc)]
      intro hm
      simp at hm
    | ok dbc =>
      cases hcr : o.creds with
      | error e =>
        rw [handlerEnv_of_error envUri o ev st _ _ _
          (tryBlockEnv_credsFail envUri o ev st dbc e hv hc hcr)]
        intro hm
        simp at hm
      | ok a =>
        cases hk : o.createDataKey st.dbClient "aws"
            (getStr ev.kmsKeyArn, getStr ev.kmsKeyRegion)
            [getStr ev.dekAltName] with
        | error e =>
          rw [handlerEnv_of_error envUri o ev st _ _ _
            (tryBlockEnv_createFail envUri o ev st dbc a e hv hc hcr hk)]
          intro hm
          simp at hm
          exact hm.1
        | ok k =>
          rw [handlerEnv_of_ok envUri o ev st _
            (tryBlockEnv_success envUri o ev st dbc a k hv hc hcr hk)]
          intro hm
          simp at hm
          exact hm.1

/-- C4: in the environment-variable variant the module-level `dbClient`
binding is never assigned: each invocation leaves it unchanged, it is
`null` after any sequence of invocations from module load, and every
`ClientEncryption` is therefore constructed with a `null` database client
(never the connection opened by `initializeMongodb`, which is a real
handle `some dbc`). -/
theorem c4_dbClient_never_assigned :
    (∀ (envUri : Option String) (o : Oracle) (ev : Event) (st : StateB),
      ((handlerEnv envUri o ev st).2.2).dbClient = st.dbClient) ∧
    (∀ (envUri : Option String) (invocs : List (Oracle × Event)),
      (runEnv envUri invocs).dbClient = none) ∧
    (∀ (envUri : Option String) (o : Oracle) (ev : Event) (st : StateB)
        (d : Option Nat) (ns : String), st.dbClient = none →
      Call.newClientEncryption d ns ∈ (handlerEnv envUri o ev st).2.1 →
      d = none) := by
  refine ⟨handlerEnv_preserves_dbClient, ?_, ?_⟩
  · intro envUri invocs
    have key : ∀ (l : List (Oracle × Event)) (st : StateB),
        (l.foldl (fun st oe => (handlerEnv envUri oe.1 oe.2 st).2.2) st).dbClient =
          st.dbClient := by
      intro l
      induction l with
      | nil => intro st; rfl
      | cons hd tl ih =>
        intro st
        rw [List.foldl_cons, ih, handlerEnv_preserves_dbClient envUri hd.1 hd.2 st]
    exact key invocs initStateB
  · intro envUri o ev st d ns hst hm
    rw [handlerEnv_newClientEncryption_dbClient envUri o ev st d ns hm, hst]

/-- Witness for C4: after one fully successful invocation from module
load, `dbClient` is still `null`, and the `ClientEncryption` constructed
during that invocation was given the `null` client. -/
theorem c4_witness :
    Call.newClientEncryption none KEY_NAMESPACE ∈
      (handlerEnv (some "mongodb://cluster") oGood evGood initStateB).2.1 ∧
    (runEnv (some "mongodb://cluster") [(oGood, evGood)]).dbClient = none ∧
    (none : Option Nat) = none :=
  ⟨by decide,
   c4_dbClient_never_assigned.2.1 (some "mongodb://cluster") [(oGood, evGood)],
   c4_dbClient_never_assigned.2.2 (some "mongodb://cluster") oGood evGood initStateB
     none KEY_NAMESPACE rfl (by decide)⟩

/-! ## C7 -/

/-- C7 is false as stated: on the spec's validation example the two
variants return byte-identical envelopes but different sequences of
external calls — the secret-store variant performs a secret-store fetch
before validation, the environment variant makes no external call. -/
theorem c7_counterexample :
    ¬ ((handlerSecret oGood evMissingArn).1 =
        (handlerEnv (some "mongodb://cluster") oGood evMissingArn initStateB).1 ∧
      (handlerSecret oGood evMissingArn).2 =
        (handlerEnv (some "mongodb://cluster") oGood evMissingArn initStateB).2.1) := by
  decide

/-- C7 (amended): for requests that pass validation, when the secret fetch
succeeds and yields the URI the environment variant reads from
`MONGODB_URI`, and when key creation responds independently of the
database-client handle it is given, the two variants return identical
response envelopes.  (Their call sequences still differ: the secret
variant fetches the secret — before validation — and hands its encryption
client the opened connection, while the environment variant hands it a
null client.) -/
theorem c7_amended_same_envelope :
    ∀ (o : Oracle) (ev : Event) (s : Secrets),
      validationFails ev = false →
      o.secretFetch = Except.ok s →
      (∀ (d1 d2 : Option Nat) (p : String) (mk : String × String)
        (alts : List String),
        o.createDataKey d1 p mk alts = o.createDataKey d2 p mk alts) →
      (handlerSecret o ev).1 = (handlerEnv s.MONGODB_URI o ev initStateB).1 := by
  intro o ev s hv hf hins
  cases hc : o.connect s.MONGODB_URI with
  | error e =>
    rw [handlerSecret_of_error o ev e _ (tryBlockSecret_connectFail o ev s e hf hv hc),
      handlerEnv_of_error s.MONGODB_URI o ev initStateB _ _ _
        (tryBlockEnv_connectFail s.MONGODB_URI o ev initStateB e hv hc)]
  | ok dbc =>
    cases hcr : o.creds with
    | error e =>
      rw [handlerSecret_of_error o ev e _
          (tryBlockSecret_credsFail o ev s dbc e hf hv hc hcr),
        handlerEnv_of_error s.MONGODB_URI o ev initStateB _ _ _
          (tryBlockEnv_credsFail s.MONGODB_URI o ev initStateB dbc e hv hc hcr)]
    | ok a =>
      have hswap := hins (some dbc) initStateB.dbClient "aws"
        (getStr ev.kmsKeyArn, getStr ev.kmsKeyRegion) [getStr ev.dekAltName]
      cases hk : o.createDataKey (some dbc) "aws"
          (getStr ev.kmsKeyArn, getStr ev.kmsKeyRegion) [getStr ev.dekAltName] with
      | error e =>
        rw [handlerSecret_of_error o ev e _
            (tryBlockSecret_createFail o ev s dbc a e hf hv hc hcr hk),
          handlerEnv_of_error s.MONGODB_URI o ev initStateB _ _ _
            (tryBlockEnv_createFail s.MONGODB_URI o ev initStateB dbc a e hv hc hcr
              (by rw [← hswap]; exact hk))]
      | ok k =>
        rw [handlerSecret_of_ok o ev _
            (tryBlockSecret_success o ev s dbc a k hf hv hc hcr hk),
          handlerEnv_of_ok s.MONGODB_URI o ev initStateB _
            (tryBlockEnv_success s.MONGODB_URI o ev initStateB dbc a k hv hc hcr
              (by rw [← hswap]; exact hk))]

/-- Witness for C7 (amended) at a fully successful concrete run. -/
theorem c7_amended_witness :
    (handlerSecret oGood evGood).1 =
      (handlerEnv secretsGood.MONGODB_URI oGood evGood initStateB).1 :=
  c7_amended_same_envelope oGood evGood secretsGood (by decide) rfl
    (fun d1 d2 p mk alts => rfl)

/-! ## C8 -/

/-- C8: if the database connection fails (after a successful secret fetch
on a valid request), the handler returns the error envelope for that
failure and `createDataKey` is never invoked in that invocation. -/
theorem c8_connect_failure_no_createDataKey :
    ∀ (o : Oracle) (ev : Event) (s : Secrets) (e : Thrown),
      validationFails ev = false →
      o.secretFetch = Except.ok s →
      o.connect s.MONGODB_URI = Except.error e →
      (handlerSecret o ev).1 = mkError e ∧
      (∀ ns d p mk alts,
        Call.createDataKey ns d p mk alts ∉ (handlerSecret o ev).2) := by
  intro o ev s e hv hf hc
  rw [handlerSecret_of_error o ev e _ (tryBlockSecret_connectFail o ev s e hf hv hc)]
  refine ⟨rfl, ?_⟩
  intro ns d p mk alts
  simp

/-- Witness for C8 at a concrete failing connection. -/
theorem c8_witness :
    (handlerSecret oConnFail evGood).1 = mkError (Thrown.errObj "MongoNetworkError") ∧
    Call.createDataKey KEY_NAMESPACE (some 7) "aws"
      ("arn:aws:kms:ap-south-1:111122223333:key/abc", "ap-south-1")
      ["service-x-dek"] ∉ (handlerSecret oConnFail evGood).2 := by
  have h := c8_connect_failure_no_createDataKey oConnFail evGood secretsGood
    (Thrown.errObj "MongoNetworkError") (by decide) rfl rfl
  exact ⟨h.1, h.2 _ _ _ _ _⟩

/-! ## C9 -/

/-- C9: once a valid request has passed the secret fetch, the connection
and credential resolution, the key-creation call is made with provider
"aws", master key `(kmsKeyArn, kmsKeyRegion)` from the request, alternate
names exactly `[dekAltName]`, on the encryption client constructed over
the opened connection and bound to the fixed key-vault namespace
`encryption.__keyVault` — whatever `createDataKey` then returns. -/
theorem c9_happy_path_createDataKey_args :
    ∀ (o : Oracle) (ev : Event) (s : Secrets) (dbc : Nat) (a : Creds),
      validationFails ev = false →
      o.secretFetch = Except.ok s →
      o.connect s.MONGODB_URI = Except.ok dbc →
      o.creds = Except.ok a →
      KEY_NAMESPACE = "encryption.__keyVault" ∧
      Call.newClientEncryption (some dbc) KEY_NAMESPACE ∈ (handlerSecret o ev).2 ∧
      Call.createDataKey KEY_NAMESPACE (some dbc) "aws"
        (getStr ev.kmsKeyArn, getStr ev.kmsKeyRegion) [getStr ev.dekAltName]
        ∈ (handlerSecret o ev).2 := by
  intro o ev s dbc a hv hf hc hcr
  have hmem : Call.newClientEncryption (some dbc) KEY_NAMESPACE ∈
      (handlerSecret o ev).2 ∧
      Call.createDataKey KEY_NAMESPACE (some dbc) "aws"
        (getStr ev.kmsKeyArn, getStr ev.kmsKeyRegion) [getStr ev.dekAltName]
        ∈ (handlerSecret o ev).2 := by
    cases hk : o.createDataKey (some dbc) "aws"
        (getStr ev.kmsKeyArn, getStr ev.kmsKeyRegion) [getStr ev.dekAltName] with
    | error e =>
      rw [handlerSecret_of_error o ev e _
        (tryBlockSecret_createFail o ev s dbc a e hf hv hc hcr hk)]
      exact ⟨by simp, by simp⟩
    | ok k =>
      rw [handlerSecret_of_ok o ev _
        (tryBlockSecret_success o ev s dbc a k hf hv hc hcr hk)]
      exact ⟨by simp, by simp⟩
  exact ⟨rfl, hmem.1, hmem.2⟩

/-- Witness for C9 at a concrete successful run: the recorded call uses
the request's ARN, region and alternate name on client handle 7 and the
fixed namespace. -/
theorem c9_witness :
    Call.newClientEncryption (some 7) KEY_NAMESPACE ∈
      (handlerSecret oGood evGood).2 ∧
    Call.createDataKey KEY_NAMESPACE (some 7) "aws"
      ("arn:aws:kms:ap-south-1:111122223333:key/abc", "ap-south-1")
      ["service-x-dek"] ∈ (handlerSecret oGood evGood).2 := by
  have h := c9_happy_path_createDataKey_args oGood evGood secretsGood 7 credsGood
    (by decide) rfl rfl rfl
  exact ⟨h.2.1, h.2.2⟩

/-! ## C10 -/

/-- C10: in the secret-store variant, the Secrets Manager fetch is the
first external call of every invocation — validation comes after it — and
when the fetch fails, even a request with every field missing produces the
fetch-failure envelope, not the validation error. -/
theorem c10_fetch_first_even_when_invalid :
    ∀ (o : Oracle) (ev : Event),
      (∃ rest, (handlerSecret o ev).2 = Call.secretFetch :: rest) ∧
      (∀ e, o.secretFetch = Except.error e →
        handlerSecret o ev = (mkError e, [Call.secretFetch])) := by
  intro o ev
  constructor
  · cases hf : o.secretFetch with
    | error e =>
      exact ⟨[], by
        rw [handlerSecret_of_error o ev e _ (tryBlockSecret_fetchFail o ev e hf)]⟩
    | ok s =>
      cases hv : validationFails ev with
      | true =>
        exact ⟨[], by
          rw [handlerSecret_of_error o ev _ _ (tryBlockSecret_invalid o ev s hf hv)]⟩
      | false =>
        cases hc : o.connect s.MONGODB_URI with
        | error e =>
          exact ⟨[Call.connect s.MONGODB_URI], by
            rw [handlerSecret_of_error o ev e _
              (tryBlockSecret_connectFail o ev s e hf hv hc)]⟩
        | ok dbc =>
          cases hcr : o.creds with
          | error e =>
            exact ⟨[Call.connect s.MONGODB_URI, Call.credsResolve], by
              rw [handlerSecret_of_error o ev e _
                (tryBlockSecret_credsFail o ev s dbc e hf hv hc hcr)]⟩
          | ok a =>
            cases hk : o.createDataKey (some dbc) "aws"
                (getStr ev.kmsKeyArn, getStr ev.kmsKeyRegion)
                [getStr ev.dekAltName] with
            | error e =>
              exact ⟨[Call.connect s.MONGODB_URI, Call.credsResolve,
                Call.newClientEncryption (some dbc) KEY_NAMESPACE,
                Call.createDataKey KEY_NAMESPACE (some dbc) "aws"
                  (getStr ev.kmsKeyArn, getStr ev.kmsKeyRegion)
                  [getStr ev.dekAltName]], by
                rw [handlerSecret_of_error o ev e _
                  (tryBlockSecret_createFail o ev s dbc a e hf hv hc hcr hk)]⟩
            | ok k =>
              exact ⟨[Call.connect s.MONGODB_URI, Call.credsResolve,
                Call.newClientEncryption (some dbc) KEY_NAMESPACE,
                Call.createDataKey KEY_NAMESPACE (some dbc) "aws"
                  (getStr ev.kmsKeyArn, getStr ev.kmsKeyRegion)
                  [getStr ev.dekAltName],
                Call.uuidGen], by
                rw [handlerSecret_of_ok o ev _
                  (tryBlockSecret_success o ev s dbc a k hf hv hc hcr hk)]⟩
  · intro e hf
    exact handlerSecret_of_error o ev e _ (tryBlockSecret_fetchFail o ev e hf)

/-- Witness for C10: every field is missing, yet the failing secret fetch
is performed and its (non-`Error`) thrown value — not the validation
error — determines the returned envelope. -/
theorem c10_witness :
    handlerSecret oFetchFail evAllMissing = (mkError thrownFetch, [Call.secretFetch]) :=
  (c10_fetch_first_even_when_invalid oFetchFail evAllMissing).2 thrownFetch rfl
